import Mathlib

/-!
Verification of the OAuth/PKCE session layer of the Sentry MCP client worker
(`src/index.ts`).  The provider class `SimpleOAuthProvider` is embedded as a
pure state record with one Lean function per method; the two HTTP handlers
(`POST /api/connect` and `GET /oauth/callback`) are embedded as functions from
their inputs (and the outcomes of the external streaming-transport
collaborator) to a structured response, together with a trace of the
collaborator calls they perform.  JavaScript string operations used by the
code (`startsWith`, `substring`, `trim`, truthiness of strings) are modelled
over `List Char`.
-/

/-! ### JavaScript string primitives -/

/-- Whitespace recognised by JavaScript `String.prototype.trim` (the common
code points; the source only ever trims a single ASCII space). -/
def jsIsWs (c : Char) : Bool :=
  c == ' ' || c == '\t' || c == '\n' || c == '\r' ||
  c == '\x0b' || c == '\x0c' || c == ' '

/-- Model of JavaScript `s.trim()`: drop whitespace from both ends. -/
def jsTrim (s : String) : String :=
  ⟨(((s.data.dropWhile jsIsWs).reverse.dropWhile jsIsWs).reverse : List Char)⟩

/-- Model of JavaScript `s.startsWith(p)`. -/
def jsStartsWith (s p : String) : Bool :=
  p.data.isPrefixOf s.data

/-- Model of JavaScript `s.substring(n)` (the source only applies it to an
ASCII prefix length, where UTF-16 units and code points coincide). -/
def jsSubstringFrom (s : String) (n : Nat) : String :=
  ⟨s.data.drop n⟩

/-- Prefix test at the head of a character list, used to model substring
containment. -/
def hasPrefixAt : List Char → List Char → Bool
  | [], _ => true
  | _ :: _, [] => false
  | p :: ps, c :: cs => p == c && hasPrefixAt ps cs

/-- Containment of `pat` anywhere in `l`. -/
def containsSub (pat : List Char) : List Char → Bool
  | [] => hasPrefixAt pat []
  | c :: cs => hasPrefixAt pat (c :: cs) || containsSub pat cs

/-- Model of JavaScript `s.includes(pat)`: the response pages are checked for
literal text with this predicate. -/
def jsIncludes (s pat : String) : Bool :=
  containsSub pat.data s.data

/-- Truthiness of JavaScript `string | undefined`: `undefined` and the empty
string are falsy (`if (!x)`). -/
def jsFalsyOptStr : Option String → Bool
  | none => true
  | some v => v == ""

/-- Value thrown by JavaScript code: an `Error` carrying a message, or any
other thrown value (the handlers test `error instanceof Error`). -/
inductive JsThrown where
  | error (msg : String)
  | other
deriving DecidableEq, Repr

/-- Message extraction used by both catch blocks:
`error instanceof Error ? error.message : 'Unknown error'`. -/
def jsErrorMessage : JsThrown → String
  | .error m => m
  | .other => "Unknown error"

/-! ### Data model (`src/index.ts` interfaces) -/

/-- Token pair as in interface `Tokens`. -/
structure Tokens where
  access_token : String
  token_type : String
  expires_in : Option Int := none
  refresh_token : Option String := none
  scope : Option String := none
deriving DecidableEq, Repr

/-- Registered client identity as in interface `ClientInformationFull`
(the declared fields; the index signature adds no behaviour, `save`/`get`
store the object unchanged). -/
structure ClientInformationFull where
  client_id : String
  client_secret : String
  redirect_uris : List String
deriving DecidableEq, Repr

/-- Mutable fields of class `SimpleOAuthProvider`. -/
structure ProviderState where
  clientInfo : Option ClientInformationFull := none
  oauthTokens : Option Tokens := none
  verifier : Option String := none
  baseUrl : String
deriving DecidableEq, Repr

/-- Constructor `new SimpleOAuthProvider(baseUrl)`. -/
def mkProvider (baseUrl : String) : ProviderState :=
  { baseUrl := baseUrl }

namespace SimpleOAuthProvider

/-- Getter `redirectUrl`. -/
def redirectUrl (s : ProviderState) : String :=
  s.baseUrl ++ "/oauth/callback"

/-- Method `clientInformation()`: returns the stored registration, if any. -/
def clientInformation (s : ProviderState) : Option ClientInformationFull :=
  s.clientInfo

/-- Method `saveClientInformation(info)`: overwrites the stored
registration. -/
def saveClientInformation (info : ClientInformationFull) (s : ProviderState) :
    ProviderState :=
  { s with clientInfo := some info }

/-- Method `tokens()`: returns the stored token pair, if any. -/
def tokens (s : ProviderState) : Option Tokens :=
  s.oauthTokens

/-- Method `saveTokens(tokens)`: overwrites the stored token pair. -/
def saveTokens (t : Tokens) (s : ProviderState) : ProviderState :=
  { s with oauthTokens := some t }

/-- Method `redirectToAuthorization(authorizationUrl)`: always throws
`new Error('Redirect to: ' + url)` and touches nothing else. -/
def redirectToAuthorization (url : String) (s : ProviderState) :
    Except JsThrown Unit × ProviderState :=
  (Except.error (JsThrown.error ("Redirect to: " ++ url)), s)

/-- Method `saveCodeVerifier(codeVerifier)`: overwrites the stored
verifier. -/
def saveCodeVerifier (v : String) (s : ProviderState) : ProviderState :=
  { s with verifier := some v }

/-- Method `codeVerifier()`: `if (!this.verifier) throw new Error('No code
verifier found'); return this.verifier` — the JavaScript truthiness test
also rejects a stored empty string. -/
def codeVerifier (s : ProviderState) : Except JsThrown String :=
  match s.verifier with
  | none => Except.error (JsThrown.error "No code verifier found")
  | some v =>
    if v == "" then Except.error (JsThrown.error "No code verifier found")
    else Except.ok v

end SimpleOAuthProvider

/-! ### Event traces over the in-memory stores -/

/-- Calls made against the token store: `saveTokens t` or a `tokens()`
read. -/
inductive TokenEvent where
  | save (t : Tokens)
  | read
deriving DecidableEq, Repr

/-- Runs a sequence of token-store calls; `tokens()` reads do not change the
state. -/
def runTokenEvents : ProviderState → List TokenEvent → ProviderState
  | s, [] => s
  | s, .save t :: rest => runTokenEvents (SimpleOAuthProvider.saveTokens t s) rest
  | s, .read :: rest => runTokenEvents s rest

/-- Last token pair saved in a trace, if any. -/
def lastSavedToken : List TokenEvent → Option Tokens
  | [] => none
  | .save t :: rest => some ((lastSavedToken rest).getD t)
  | .read :: rest => lastSavedToken rest

/-- Calls made against the verifier store: `saveCodeVerifier v` or a
`codeVerifier()` read. -/
inductive VerifierEvent where
  | save (v : String)
  | read
deriving DecidableEq, Repr

/-- Runs a sequence of verifier-store calls; `codeVerifier()` reads do not
change the state. -/
def runVerifierEvents : ProviderState → List VerifierEvent → ProviderState
  | s, [] => s
  | s, .save v :: rest => runVerifierEvents (SimpleOAuthProvider.saveCodeVerifier v s) rest
  | s, .read :: rest => runVerifierEvents s rest

/-- Last verifier saved in a trace, if any. -/
def lastSavedVerifier : List VerifierEvent → Option String
  | [] => none
  | .save v :: rest => some ((lastSavedVerifier rest).getD v)
  | .read :: rest => lastSavedVerifier rest

/-! ### HTTP handler: `POST /api/connect` -/

/-- Element of the `tools` array returned by the remote collaborator's
`listTools()`. -/
structure Tool where
  name : String
deriving DecidableEq, Repr

/-- JSON body and status produced by the `/api/connect` handler; absent
fields are `none`. -/
structure JsonConnectResponse where
  status : Nat
  success : Option Bool := none
  tools : Option (List Tool) := none
  redirect : Option String := none
  error : Option String := none
deriving DecidableEq, Repr

/-- Response mapping of the `POST /api/connect` handler, given the outcome of
the try block (connect + `listTools()` + `close()`, abstracted as the tool
list on success or the thrown value on failure): success returns
`{ success: true, tools }`; a thrown `Error` whose message starts with
`'Redirect to:'` returns `{ redirect }` with the default status 200; anything
else returns `{ error }` with status 500. -/
def apiConnectRespond : Except JsThrown (List Tool) → JsonConnectResponse
  | .ok ts => { status := 200, success := some true, tools := some ts }
  | .error (.error msg) =>
    if jsStartsWith msg "Redirect to:" then
      { status := 200,
        redirect := some (jsTrim (jsSubstringFrom msg ("Redirect to:").length)) }
    else { status := 500, error := some msg }
  | .error .other => { status := 500, error := some "Unknown error" }

/-! ### HTTP handler: `GET /oauth/callback` -/

/-- HTML page returned when the callback carries no (or an empty) `code`
query parameter. -/
def noCodePage : String :=
  "\n      <html>\n        <body>\n          <h1>Authentication Error</h1>\n          <p>No authorization code provided.</p>\n        </body>\n      </html>\n    "

/-- HTML page returned by the callback's catch block, interpolating the
failure message. -/
def authErrorPage (msg : String) : String :=
  "\n      <html>\n        <body>\n          <h1>Authentication Error</h1>\n          <p>Failed to complete authentication: " ++ msg ++
  "</p>\n          <p><a href=\"/\">Return to the main page</a></p>\n        </body>\n      </html>\n    "

/-- HTML page returned when `finishAuth` and the connection attempt both
succeed. -/
def successPage : String :=
  "\n      <html>\n        <body>\n          <h1>Authentication Successful</h1>\n          <p>You have successfully authenticated with the Sentry MCP server.</p>\n          <p><a href=\"/\">Return to the main page</a></p>\n          <script>\n            setTimeout(() => \x7b\n              window.location.href = \x27/\x27;\n            \x7d, 3000);\n          </script>\n        </body>\n      </html>\n    "

/-- External calls the callback handler can make, in order. -/
inductive CallbackAction where
  | constructProvider
  | finishAuth (code : String)
  | connectStream
  | closeConn
deriving DecidableEq, Repr

/-- Outcome of one callback request: the HTML body, the trace of external
calls, and the provider after the request. -/
structure CallbackResult where
  body : String
  actions : List CallbackAction
  provider : Option ProviderState
deriving Repr

/-- Model of the `GET /oauth/callback` handler.  `finishAuthFn` and
`connectFn` stand for the external collaborator calls
`transport.finishAuth(code)` and `client.connect(transport)`; each may
mutate the provider (via its auth-provider callbacks) and either return or
throw.  The handler: rejects a falsy `code`; throws
`'OAuth provider not initialized'` into its own catch block when the global
provider does not exist; re-checks the (necessarily present) provider —
the dead second check of the source; runs `finishAuth` then `connect`,
rendering the catch page on any thrown value; and returns the success page
without ever issuing a close. -/
def oauthCallback
    (finishAuthFn : String → ProviderState → ProviderState × Except JsThrown Unit)
    (connectFn : ProviderState → ProviderState × Except JsThrown Unit)
    (baseUrl : String) (provider : Option ProviderState) (code : Option String) :
    CallbackResult :=
  match code with
  | none => { body := noCodePage, actions := [], provider := provider }
  | some c =>
    if c == "" then { body := noCodePage, actions := [], provider := provider }
    else
      match provider with
      | none =>
        { body := authErrorPage (jsErrorMessage (JsThrown.error "OAuth provider not initialized"))
          actions := []
          provider := none }
      | some p =>
        let second : ProviderState × List CallbackAction :=
          match (some p : Option ProviderState) with
          | none => (mkProvider baseUrl, [CallbackAction.constructProvider])
          | some q => (q, [])
        let (p2, r2) := finishAuthFn c second.1
        match r2 with
        | Except.error e =>
          { body := authErrorPage (jsErrorMessage e)
            actions := second.2 ++ [CallbackAction.finishAuth c]
            provider := some p2 }
        | Except.ok _ =>
          let (p3, r3) := connectFn p2
          match r3 with
          | Except.error e =>
            { body := authErrorPage (jsErrorMessage e)
              actions := second.2 ++ [CallbackAction.finishAuth c, CallbackAction.connectStream]
              provider := some p3 }
          | Except.ok _ =>
            { body := successPage
              actions := second.2 ++ [CallbackAction.finishAuth c, CallbackAction.connectStream]
              provider := some p3 }

/-- Response shape `{ success: true, tools: [...] }` with status 200. -/
def successShape (r : JsonConnectResponse) : Prop :=
  r.status = 200 ∧ r.success = some true ∧ r.tools.isSome ∧
  r.redirect = none ∧ r.error = none

/-- Response shape `{ redirect: "<url>" }` with status 200. -/
def redirectShape (r : JsonConnectResponse) : Prop :=
  r.status = 200 ∧ r.success = none ∧ r.tools = none ∧
  r.redirect.isSome ∧ r.error = none

/-- Response shape `{ error: "<message>" }` with a non-2xx status. -/
def errorShape (r : JsonConnectResponse) : Prop :=
  ¬(200 ≤ r.status ∧ r.status < 300) ∧ r.success = none ∧ r.tools = none ∧
  r.redirect = none ∧ r.error.isSome

/-! ### Helper lemmas -/

theorem isPrefixOf_append_self (p rest : List Char) :
    List.isPrefixOf p (p ++ rest) = true := by
  induction p with
  | nil => simp
  | cons c cs ih => simp [List.isPrefixOf, ih]

theorem jsStartsWith_redirectMsg (u : String) :
    jsStartsWith ("Redirect to: " ++ u) "Redirect to:" = true := by
  have h : ("Redirect to: " ++ u).data = "Redirect to:".data ++ (' ' :: u.data) := rfl
  rw [jsStartsWith, h]
  exact isPrefixOf_append_self _ _

theorem jsSubstringFrom_redirectMsg (u : String) :
    jsSubstringFrom ("Redirect to: " ++ u) ("Redirect to:").length = " " ++ u := by
  show (⟨("Redirect to: " ++ u).data.drop 12⟩ : String) = " " ++ u
  have h : ("Redirect to: " ++ u).data = "Redirect to:".data ++ (' ' :: u.data) := rfl
  rw [h]
  have h2 : ("Redirect to:".data).length = 12 := rfl
  rw [← h2, List.drop_left]
  rfl

theorem jsTrim_space_append (u : String) : jsTrim (" " ++ u) = jsTrim u := by
  have hd : (" " ++ u).data = ' ' :: u.data := rfl
  simp [jsTrim, hd, List.dropWhile_cons, jsIsWs]

theorem tokens_runTokenEvents (evs : List TokenEvent) (s : ProviderState) :
    SimpleOAuthProvider.tokens (runTokenEvents s evs) =
      (lastSavedToken evs).or (SimpleOAuthProvider.tokens s) := by
  induction evs generalizing s with
  | nil => simp [runTokenEvents, lastSavedToken]
  | cons e rest ih =>
    cases e with
    | save t =>
      simp only [runTokenEvents]
      rw [ih]
      cases h : lastSavedToken rest <;>
        simp [lastSavedToken, h, Option.or, SimpleOAuthProvider.tokens,
          SimpleOAuthProvider.saveTokens]
    | read => simp [runTokenEvents, lastSavedToken, ih]

theorem verifier_runVerifierEvents (evs : List VerifierEvent) (s : ProviderState) :
    (runVerifierEvents s evs).verifier = (lastSavedVerifier evs).or s.verifier := by
  induction evs generalizing s with
  | nil => simp [runVerifierEvents, lastSavedVerifier]
  | cons e rest ih =>
    cases e with
    | save v =>
      simp only [runVerifierEvents]
      rw [ih]
      cases h : lastSavedVerifier rest <;>
        simp [lastSavedVerifier, h, Option.or, SimpleOAuthProvider.saveCodeVerifier]
    | read => simp [runVerifierEvents, lastSavedVerifier, ih]

/-! ### Claim theorems -/

/-- C1: for every URL `u` (URL serialisations carry no edge whitespace, so
`jsTrim u = u`), `redirectToAuthorization(u)` never returns normally, leaves
the provider state untouched, and always fails by throwing the distinguished
redirect-required condition — an `Error` whose message starts with
`'Redirect to:'` and whose remainder, parsed the way the HTTP layer parses
it, is exactly `u`. -/
theorem redirectToAuthorization_signals (u : String) (s : ProviderState)
    (h : jsTrim u = u) :
    (∀ x, (SimpleOAuthProvider.redirectToAuthorization u s).1 ≠ Except.ok x) ∧
    (SimpleOAuthProvider.redirectToAuthorization u s).2 = s ∧
    ∃ m, (SimpleOAuthProvider.redirectToAuthorization u s).1 =
        Except.error (JsThrown.error m) ∧
      jsStartsWith m "Redirect to:" = true ∧
      jsTrim (jsSubstringFrom m ("Redirect to:").length) = u := by
  refine ⟨fun x hx => by simp [SimpleOAuthProvider.redirectToAuthorization] at hx, rfl,
    "Redirect to: " ++ u, rfl, jsStartsWith_redirectMsg u, ?_⟩
  rw [jsSubstringFrom_redirectMsg, jsTrim_space_append, h]

/-- Witness for C1 at a concrete authorization URL and provider state. -/
theorem redirectToAuthorization_signals_witness :
    jsTrim "https://sentry.io/oauth/authorize/?client_id=abc" =
      "https://sentry.io/oauth/authorize/?client_id=abc" ∧
    ((∀ x, (SimpleOAuthProvider.redirectToAuthorization
        "https://sentry.io/oauth/authorize/?client_id=abc"
        (mkProvider "https://client.example")).1 ≠ Except.ok x) ∧
    (SimpleOAuthProvider.redirectToAuthorization
        "https://sentry.io/oauth/authorize/?client_id=abc"
        (mkProvider "https://client.example")).2 = mkProvider "https://client.example" ∧
    ∃ m, (SimpleOAuthProvider.redirectToAuthorization
        "https://sentry.io/oauth/authorize/?client_id=abc"
        (mkProvider "https://client.example")).1 =
        Except.error (JsThrown.error m) ∧
      jsStartsWith m "Redirect to:" = true ∧
      jsTrim (jsSubstringFrom m ("Redirect to:").length) =
        "https://sentry.io/oauth/authorize/?client_id=abc") :=
  ⟨by decide,
    redirectToAuthorization_signals "https://sentry.io/oauth/authorize/?client_id=abc"
      (mkProvider "https://client.example") (by decide)⟩

/-- C2: the redirect signal round-trips — whenever
`redirectToAuthorization(u)` throws `e` and the `POST /api/connect` catch
block receives `e`, the JSON response is `{ redirect: u }` with status 200
(and in particular not an HTTP 3xx). -/
theorem redirect_roundtrip (u : String) (s : ProviderState) (h : jsTrim u = u)
    (e : JsThrown)
    (he : (SimpleOAuthProvider.redirectToAuthorization u s).1 = Except.error e) :
    apiConnectRespond (Except.error e) =
      { status := 200, success := none, tools := none, redirect := some u,
        error := none } ∧
    ¬(300 ≤ (apiConnectRespond (Except.error e)).status ∧
      (apiConnectRespond (Except.error e)).status < 400) := by
  have he' : JsThrown.error ("Redirect to: " ++ u) = e := by
    injection he
  subst he'
  have hr : apiConnectRespond (Except.error (JsThrown.error ("Redirect to: " ++ u))) =
      { status := 200, success := none, tools := none, redirect := some u,
        error := none } := by
    simp [apiConnectRespond, jsStartsWith_redirectMsg, jsSubstringFrom_redirectMsg,
      jsTrim_space_append, h]
  rw [hr]
  simp

/-- Witness for C2 at a concrete authorization URL. -/
theorem redirect_roundtrip_witness :
    jsTrim "https://sentry.io/oauth/authorize/?client_id=abc" =
      "https://sentry.io/oauth/authorize/?client_id=abc" ∧
    (SimpleOAuthProvider.redirectToAuthorization
        "https://sentry.io/oauth/authorize/?client_id=abc"
        (mkProvider "https://client.example")).1 =
      Except.error (JsThrown.error
        ("Redirect to: " ++ "https://sentry.io/oauth/authorize/?client_id=abc")) ∧
    (apiConnectRespond (Except.error (JsThrown.error
        ("Redirect to: " ++ "https://sentry.io/oauth/authorize/?client_id=abc"))) =
      { status := 200, success := none, tools := none,
        redirect := some "https://sentry.io/oauth/authorize/?client_id=abc",
        error := none } ∧
    ¬(300 ≤ (apiConnectRespond (Except.error (JsThrown.error
        ("Redirect to: " ++ "https://sentry.io/oauth/authorize/?client_id=abc")))).status ∧
      (apiConnectRespond (Except.error (JsThrown.error
        ("Redirect to: " ++ "https://sentry.io/oauth/authorize/?client_id=abc")))).status < 400)) :=
  ⟨by decide, rfl,
    redirect_roundtrip "https://sentry.io/oauth/authorize/?client_id=abc"
      (mkProvider "https://client.example") (by decide)
      (JsThrown.error ("Redirect to: " ++ "https://sentry.io/oauth/authorize/?client_id=abc"))
      rfl⟩

/-- C3: every `POST /api/connect` response has exactly one of the three
shapes `{ success: true, tools }` (200), `{ redirect }` (200), or
`{ error }` (non-2xx); the three shapes are mutually exclusive and no fourth
shape occurs. -/
theorem apiConnect_three_shapes (result : Except JsThrown (List Tool)) :
    (successShape (apiConnectRespond result) ∨
     redirectShape (apiConnectRespond result) ∨
     errorShape (apiConnectRespond result)) ∧
    ¬(successShape (apiConnectRespond result) ∧ redirectShape (apiConnectRespond result)) ∧
    ¬(successShape (apiConnectRespond result) ∧ errorShape (apiConnectRespond result)) ∧
    ¬(redirectShape (apiConnectRespond result) ∧ errorShape (apiConnectRespond result)) := by
  constructor
  · match result with
    | .ok ts => exact Or.inl (by simp [apiConnectRespond, successShape])
    | .error (.error msg) =>
      by_cases hp : jsStartsWith msg "Redirect to:" = true
      · exact Or.inr (Or.inl (by simp [apiConnectRespond, hp, redirectShape]))
      · refine Or.inr (Or.inr ?_)
        simp only [Bool.not_eq_true] at hp
        simp [apiConnectRespond, hp, errorShape]
    | .error .other => exact Or.inr (Or.inr (by simp [apiConnectRespond, errorShape]))
  · refine ⟨?_, ?_, ?_⟩
    · intro h
      simp only [successShape, redirectShape] at h
      obtain ⟨⟨-, hs2, -, -, -⟩, -, hr2, -, -, -⟩ := h
      exact Option.noConfusion (hs2.symm.trans hr2)
    · intro h
      simp only [successShape, errorShape] at h
      obtain ⟨⟨hs1, -, -, -, -⟩, he1, -, -, -, -⟩ := h
      exact he1 ⟨by omega, by omega⟩
    · intro h
      simp only [redirectShape, errorShape] at h
      obtain ⟨⟨hr1, -, -, -, -⟩, he1, -, -, -, -⟩ := h
      exact he1 ⟨by omega, by omega⟩

/-- C4 counterexample: after `saveCodeVerifier("")` the most recently saved
verifier is `""`, yet `codeVerifier()` throws `'No code verifier found'`
instead of returning it — the JavaScript truthiness test `if (!this.verifier)`
treats a saved empty string as absent, refuting the claim as stated. -/
theorem codeVerifier_counterexample :
    lastSavedVerifier [VerifierEvent.save ""] = some "" ∧
    SimpleOAuthProvider.codeVerifier
        (runVerifierEvents (mkProvider "http://localhost:8787") [VerifierEvent.save ""]) =
      Except.error (JsThrown.error "No code verifier found") ∧
    SimpleOAuthProvider.codeVerifier
        (runVerifierEvents (mkProvider "http://localhost:8787") [VerifierEvent.save ""]) ≠
      Except.ok "" :=
  ⟨rfl, rfl, fun h => Except.noConfusion h⟩

/-- C4 (amended): for every sequence of `saveCodeVerifier`/`codeVerifier`
calls on a fresh provider, `codeVerifier()` fails with the NotFound error if
and only if `saveCodeVerifier` was never called or the most recently saved
verifier is the empty string; for any non-empty most recently saved verifier
it returns that verifier. -/
theorem codeVerifier_amended (b : String) (evs : List VerifierEvent) :
    (SimpleOAuthProvider.codeVerifier (runVerifierEvents (mkProvider b) evs) =
        Except.error (JsThrown.error "No code verifier found") ↔
      (lastSavedVerifier evs = none ∨ lastSavedVerifier evs = some "")) ∧
    (∀ v, lastSavedVerifier evs = some v → v ≠ "" →
      SimpleOAuthProvider.codeVerifier (runVerifierEvents (mkProvider b) evs) =
        Except.ok v) := by
  have hv : (runVerifierEvents (mkProvider b) evs).verifier = lastSavedVerifier evs := by
    rw [verifier_runVerifierEvents]
    cases lastSavedVerifier evs <;> simp [Option.or, mkProvider]
  constructor
  · rw [SimpleOAuthProvider.codeVerifier, hv]
    cases h : lastSavedVerifier evs with
    | none => simp
    | some v =>
      by_cases hv0 : v = ""
      · subst hv0; simp
      · have : (v == "") = false := by simp [hv0]
        simp [this, hv0]
  · intro v hsv hv0
    rw [SimpleOAuthProvider.codeVerifier, hv, hsv]
    have : (v == "") = false := by simp [hv0]
    simp [this]

/-- Witness for C4 (amended) on a concrete save/read trace. -/
theorem codeVerifier_amended_witness :
    ("pkce-verifier-string" : String) ≠ "" ∧
    lastSavedVerifier [VerifierEvent.save "pkce-verifier-string", VerifierEvent.read] =
      some "pkce-verifier-string" ∧
    SimpleOAuthProvider.codeVerifier
        (runVerifierEvents (mkProvider "https://client.example")
          [VerifierEvent.save "pkce-verifier-string", VerifierEvent.read]) =
      Except.ok "pkce-verifier-string" :=
  ⟨by decide, rfl,
    (codeVerifier_amended "https://client.example"
      [VerifierEvent.save "pkce-verifier-string", VerifierEvent.read]).2
      "pkce-verifier-string" rfl (by decide)⟩

/-- C5: for every sequence of `saveTokens`/`tokens()` calls on a fresh
provider, `tokens()` returns exactly the last-saved token pair
(last-write-wins, unconditional overwrite) and `none` if no save ever
occurred. -/
theorem tokens_lastWriteWins (b : String) (evs : List TokenEvent) :
    SimpleOAuthProvider.tokens (runTokenEvents (mkProvider b) evs) =
      lastSavedToken evs := by
  rw [tokens_runTokenEvents]
  cases lastSavedToken evs <;> simp [Option.or, SimpleOAuthProvider.tokens, mkProvider]

/-- C6 counterexample: with both `finishAuth` and the connection attempt
succeeding, the callback handler returns the success page while its trace of
external calls contains no close — the connection established to validate
the exchange is left open, refuting the claim that it is closed immediately
before the success page is returned. -/
theorem callback_success_close_missing :
    (oauthCallback (fun _ s => (s, Except.ok ())) (fun s => (s, Except.ok ()))
        "https://client.example" (some (mkProvider "https://client.example"))
        (some "abc123")).body = successPage ∧
    CallbackAction.closeConn ∉
      (oauthCallback (fun _ s => (s, Except.ok ())) (fun s => (s, Except.ok ()))
        "https://client.example" (some (mkProvider "https://client.example"))
        (some "abc123")).actions := by
  constructor
  · rfl
  · decide

/-- C6 (amended): on the completion-of-authentication path, whenever the
code-for-token exchange succeeds and the streaming connection is
established, the handler returns the success page with the connection still
open: its external-call trace is exactly `finishAuth` then `connect`, with
no close ever issued. -/
theorem callback_success_leaves_connection_open
    (fa : String → ProviderState → ProviderState × Except JsThrown Unit)
    (conn : ProviderState → ProviderState × Except JsThrown Unit)
    (b : String) (p : ProviderState) (c : String) (hc : c ≠ "")
    (hfa : (fa c p).2 = Except.ok ()) (hconn : (conn (fa c p).1).2 = Except.ok ()) :
    oauthCallback fa conn b (some p) (some c) =
      { body := successPage
        actions := [CallbackAction.finishAuth c, CallbackAction.connectStream]
        provider := some (conn (fa c p).1).1 } ∧
    CallbackAction.closeConn ∉ (oauthCallback fa conn b (some p) (some c)).actions := by
  have hcb : (c == "") = false := by simp [hc]
  rcases h2 : fa c p with ⟨p2, r2⟩
  rw [h2] at hfa hconn
  simp only at hfa hconn
  subst hfa
  rcases h3 : conn p2 with ⟨p3, r3⟩
  rw [h3] at hconn
  simp only at hconn
  subst hconn
  constructor
  · simp [oauthCallback, hcb, h2, h3]
  · simp [oauthCallback, hcb, h2, h3]

/-- Witness for C6 (amended) with concrete succeeding collaborators. -/
theorem callback_success_leaves_connection_open_witness :
    ("abc123" : String) ≠ "" ∧
    (oauthCallback (fun _ s => (s, Except.ok ())) (fun s => (s, Except.ok ()))
        "https://client.example" (some (mkProvider "https://client.example"))
        (some "abc123") =
      { body := successPage
        actions := [CallbackAction.finishAuth "abc123", CallbackAction.connectStream]
        provider := some (mkProvider "https://client.example") } ∧
    CallbackAction.closeConn ∉
      (oauthCallback (fun _ s => (s, Except.ok ())) (fun s => (s, Except.ok ()))
        "https://client.example" (some (mkProvider "https://client.example"))
        (some "abc123")).actions) :=
  ⟨by decide,
    callback_success_leaves_connection_open
      (fun _ s => (s, Except.ok ())) (fun s => (s, Except.ok ()))
      "https://client.example" (mkProvider "https://client.example") "abc123"
      (by decide) rfl rfl⟩

/-- C7: saving a client registration and then calling `clientInformation()`
returns a value equal in all fields to what was saved, overwriting any
previously stored registration (the prior state `s` is arbitrary). -/
theorem clientInformation_roundtrip (r : ClientInformationFull) (s : ProviderState) :
    SimpleOAuthProvider.clientInformation (SimpleOAuthProvider.saveClientInformation r s) =
      some r := rfl

/-- C8: a callback request with no `code` query parameter returns the HTML
page containing the literal text "No authorization code provided.", performs
no external call (in particular no exchange), and leaves the provider — and
with it every store — unchanged, for any collaborators and any prior
state. -/
theorem noCode_no_exchange
    (fa : String → ProviderState → ProviderState × Except JsThrown Unit)
    (conn : ProviderState → ProviderState × Except JsThrown Unit)
    (b : String) (prov : Option ProviderState) :
    oauthCallback fa conn b prov none =
      { body := noCodePage, actions := [], provider := prov } ∧
    jsIncludes noCodePage "No authorization code provided." = true :=
  ⟨rfl, by decide⟩

/-- C9: the `POST /api/connect` handler classifies failures solely by the
message prefix — every thrown `Error` whose message starts with
`'Redirect to:'`, whatever its origin, yields `{ redirect: <rest of the
message, trimmed> }` with status 200 rather than an error response. -/
theorem apiConnect_prefix_classification (msg : String)
    (h : jsStartsWith msg "Redirect to:" = true) :
    apiConnectRespond (Except.error (JsThrown.error msg)) =
      { status := 200, success := none, tools := none,
        redirect := some (jsTrim (jsSubstringFrom msg ("Redirect to:").length)),
        error := none } := by
  simp [apiConnectRespond, h]

/-- Witness for C9 on a genuine connection-error message that merely happens
to begin with the redirect prefix. -/
theorem apiConnect_prefix_classification_witness :
    jsStartsWith "Redirect to: connection reset by upstream" "Redirect to:" = true ∧
    apiConnectRespond (Except.error (JsThrown.error
        "Redirect to: connection reset by upstream")) =
      { status := 200, success := none, tools := none,
        redirect := some "connection reset by upstream", error := none } :=
  ⟨by decide,
    (apiConnect_prefix_classification "Redirect to: connection reset by upstream"
      (by decide)).trans (by decide)⟩

/-- C10: a callback request carrying a (non-empty) code while the global
provider was never constructed performs no external call — in particular no
exchange attempt — and returns the error page containing "Failed to complete
authentication" and the message "OAuth provider not initialized"; moreover
the second provider-construction check inside the handler is unreachable: no
execution of the handler ever constructs a provider. -/
theorem callback_uninitialized_provider :
    (∀ fa conn (b c : String), c ≠ "" →
      oauthCallback fa conn b none (some c) =
        { body := authErrorPage "OAuth provider not initialized", actions := [],
          provider := none }) ∧
    jsIncludes (authErrorPage "OAuth provider not initialized")
      "Failed to complete authentication" = true ∧
    jsIncludes (authErrorPage "OAuth provider not initialized")
      "OAuth provider not initialized" = true ∧
    (∀ fa conn b prov code,
      CallbackAction.constructProvider ∉ (oauthCallback fa conn b prov code).actions) := by
  refine ⟨?_, by decide, by decide, ?_⟩
  · intro fa conn b c hc
    have hcb : (c == "") = false := by simp [hc]
    simp [oauthCallback, hcb, jsErrorMessage]
  · intro fa conn b prov code
    cases code with
    | none => simp [oauthCallback]
    | some c =>
      by_cases hcb : (c == "") = true
      · simp [oauthCallback, hcb]
      · simp only [Bool.not_eq_true] at hcb
        cases prov with
        | none => simp [oauthCallback, hcb]
        | some p =>
          rcases h2 : fa c p with ⟨p2, r2⟩
          cases r2 with
          | error e => simp [oauthCallback, hcb, h2]
          | ok v =>
            rcases h3 : conn p2 with ⟨p3, r3⟩
            cases r3 with
            | error e => simp [oauthCallback, hcb, h2, h3]
            | ok w => simp [oauthCallback, hcb, h2, h3]

/-- Witness for C10 with a concrete code and concrete collaborators. -/
theorem callback_uninitialized_provider_witness :
    oauthCallback (fun _ s => (s, Except.ok ())) (fun s => (s, Except.ok ()))
        "https://client.example" none (some "abc123") =
      { body := authErrorPage "OAuth provider not initialized", actions := [],
        provider := none } ∧
    CallbackAction.constructProvider ∉
      (oauthCallback (fun _ s => (s, Except.ok ())) (fun s => (s, Except.ok ()))
        "https://client.example" none (some "abc123")).actions :=
  ⟨callback_uninitialized_provider.1 _ _ _ _ (by decide),
    callback_uninitialized_provider.2.2.2 _ _ _ _ _⟩
